import Mathlib

/-!
Shallow embedding of `src/plugins/python-plugin/app.py`: the in-memory
commerce store (`data_store`) and the action dispatcher (the `/execute`
endpoint and the three webhook handlers).  Numeric amounts are modelled
as exact rationals, machine strings as `String`, JSON-optional payload
fields as `Option`.  Each handler is a pure function from a `Store` and
a request to a result, a new `Store` and the HTTP status code.
-/

namespace CmsPlugin

/-- A stored product, as built by seeding or by the `product.created` hook
(`app.py` lines 24-28 and 104-110). -/
structure Product where
  id : Nat
  name : String
  price : ℚ
  category : String
  stock : Int
deriving Repr, DecidableEq

/-- An order's `status` field: `"processing"` (webhook path, line 157)
or `"confirmed"` (`create_order` path, line 312). -/
inductive OrderStatus where
  | processing
  | confirmed
deriving Repr, DecidableEq

/-- A stored order.  Two creation paths produce different shapes: the
`create_order` action (lines 304-313) fills the product-linkage fields,
the `order.created` hook (lines 153-158) leaves them absent. -/
structure Order where
  id : Nat
  product_id : Option Int := none
  product_name : Option String := none
  quantity : Option Int := none
  unit_price : Option ℚ := none
  total_price : ℚ
  status : OrderStatus
deriving Repr, DecidableEq

/-- The analytics aggregate (`data_store["analytics"]`, line 30). -/
structure Analytics where
  total_revenue : ℚ
  orders_count : Nat
deriving Repr, DecidableEq

/-- The observational counters (`data_store["counters"]`, line 23). -/
structure Counters where
  requests : Nat
  calculations : Nat
  queries : Nat
deriving Repr, DecidableEq

/-- The process-wide store (`data_store`, lines 22-31). -/
structure Store where
  counters : Counters
  products : List Product
  orders : List Order
  analytics : Analytics
deriving Repr, DecidableEq

/-- The initial value of `data_store` (lines 22-31): three seeded
products, no orders, zeroed aggregate and counters. -/
def data_store : Store :=
  { counters := { requests := 0, calculations := 0, queries := 0 }
    products :=
      [ { id := 1, name := "Python Book", price := 29.99, category := "books", stock := 50 }
      , { id := 2, name := "Flask Guide", price := 39.99, category := "books", stock := 25 }
      , { id := 3, name := "Code Editor", price := 99.99, category := "software", stock := 100 } ]
    orders := []
    analytics := { total_revenue := 0, orders_count := 0 } }

/-- Payload of a product webhook request (`payload.get` calls, lines 99-109). -/
structure ProductPayload where
  name : Option String := none
  price : Option ℚ := none
  category : Option String := none
  stock : Option Int := none
deriving Repr, DecidableEq

/-- Payload of an order webhook request (`payload.get('total', 0.0)`, line 150). -/
structure OrderPayload where
  total : Option ℚ := none
deriving Repr, DecidableEq

/-- The `data` object of an `/execute` request (lines 290-292, 346, 367). -/
structure ExecData where
  product_id : Option Int := none
  quantity : Option Int := none
  n : Option Int := none
  delay_ms : Option Int := none
deriving Repr, DecidableEq

/-- Analytics snapshot returned by the analytics paths
(lines 204-218 and 331-341). -/
structure AnalyticsSnapshot where
  total_products : Nat
  total_orders : Nat
  total_revenue : ℚ
  average_order_value : ℚ
  recent_orders : List Order := []
deriving Repr, DecidableEq

/-- Result body of a webhook handler. -/
structure HookResult where
  success : Bool
  hook : String
  message : Option String := none
  error : Option String := none
  supported_hooks : Option (List String) := none
  analytics_data : Option AnalyticsSnapshot := none
deriving Repr, DecidableEq

/-- Result body of the `/execute` endpoint (one structure covering the
fields the six action branches and the fallback produce). -/
structure ExecResult where
  action : String
  success : Bool
  error : Option String := none
  available_actions : Option (List String) := none
  products : Option (List Product) := none
  count : Option Nat := none
  order : Option Order := none
  message : Option String := none
  analytics : Option AnalyticsSnapshot := none
  fib_input : Option Int := none
  fib_result : Option Int := none
  calculations_performed : Option Nat := none
  requested_delay_ms : Option Int := none
  random_numbers : Option (List Int) := none
deriving Repr, DecidableEq

/-- Round an integer-scaled value to the nearest integer, ties to even,
as Python's builtin `round` does. -/
def roundHalfEven (q : ℚ) : ℤ :=
  let f := ⌊q⌋
  let frac := q - f
  if frac < 1/2 then f
  else if 1/2 < frac then f + 1
  else if f % 2 = 0 then f else f + 1

/-- Python's `round(x, 2)` on exact values. -/
def round2 (q : ℚ) : ℚ := (roundHalfEven (q * 100) : ℚ) / 100

/-- The naive recursion on naturals underlying `fibonacci` (line 349-352). -/
def fibAux : Nat → Nat
  | 0 => 0
  | 1 => 1
  | n + 2 => fibAux (n + 1) + fibAux n

/-- The `fibonacci` helper of the `calculate_fibonacci` branch
(lines 349-352): `num <= 1` returns `num`, otherwise the naive
double recursion. -/
def fibonacci (num : Int) : Int :=
  if num ≤ 1 then num else fibAux num.toNat

/-- Increment `counters.requests` (the `+= 1` at each endpoint entry). -/
def bumpRequests (s : Store) : Store :=
  { s with counters := { s.counters with requests := s.counters.requests + 1 } }

/-- Increment `counters.calculations`. -/
def bumpCalculations (s : Store) : Store :=
  { s with counters := { s.counters with calculations := s.counters.calculations + 1 } }

/-- Increment `counters.queries`. -/
def bumpQueries (s : Store) : Store :=
  { s with counters := { s.counters with queries := s.counters.queries + 1 } }

/-- The product built by the `product.created` hook (lines 104-110):
id from the current length, remaining fields from the payload with the
source's defaults. -/
def mkProduct (s : Store) (payload : ProductPayload) : Product :=
  { id := s.products.length + 1
    name := payload.name.getD "Unknown Product"
    price := payload.price.getD 0
    category := payload.category.getD "general"
    stock := payload.stock.getD 0 }

/-- `handle_product_action` (lines 84-133): bumps `requests`, then
`product.created` appends a product, `product.updated` acknowledges
without mutation, anything else is rejected with HTTP 400. -/
def handle_product_action (s : Store) (hook : String) (payload : ProductPayload) :
    HookResult × Store × Nat :=
  let s := bumpRequests s
  if hook = "product.created" ∨ hook = "product.updated" then
    let product_name := payload.name.getD "Unknown Product"
    let s :=
      if hook = "product.created" then
        { s with products := s.products ++ [mkProduct s payload] }
      else s
    ({ success := true, hook := hook
       message := some ("Processed " ++ hook ++ " for product " ++ product_name) }, s, 200)
  else
    ({ success := false, hook := hook
       error := some ("Unsupported hook: " ++ hook)
       supported_hooks := some ["product.created", "product.updated"] }, s, 400)

/-- `handle_order_action` (lines 135-183): bumps `requests`, then
`order.created` appends an order carrying only a total and updates the
analytics aggregate; `order.updated` and `order.paid` acknowledge
without mutation; anything else is rejected with HTTP 400. -/
def handle_order_action (s : Store) (hook : String) (payload : OrderPayload) :
    HookResult × Store × Nat :=
  let s := bumpRequests s
  if hook = "order.created" ∨ hook = "order.updated" ∨ hook = "order.paid" then
    let total := payload.total.getD 0
    let s :=
      if hook = "order.created" then
        { s with
          orders := s.orders ++
            [{ id := s.orders.length + 1, total_price := total, status := .processing }]
          analytics :=
            { total_revenue := s.analytics.total_revenue + total
              orders_count := s.analytics.orders_count + 1 } }
      else s
    ({ success := true, hook := hook
       message := some ("Processed " ++ hook ++ " for order") }, s, 200)
  else
    ({ success := false, hook := hook
       error := some ("Unsupported hook: " ++ hook)
       supported_hooks := some ["order.created", "order.updated", "order.paid"] }, s, 400)

/-- `handle_analytics_action` (lines 185-240): bumps `calculations`
(not `requests`), then the two supported hooks return the aggregate
snapshot read-only; anything else is rejected with HTTP 400. -/
def handle_analytics_action (s : Store) (hook : String) :
    HookResult × Store × Nat :=
  let s := bumpCalculations s
  if hook = "analytics.calculate" ∨ hook = "report.generate" then
    let total_orders := s.orders.length
    let avg_order_value := s.analytics.total_revenue / (max total_orders 1 : ℚ)
    ({ success := true, hook := hook
       analytics_data := some
         { total_products := s.products.length
           total_orders := total_orders
           total_revenue := s.analytics.total_revenue
           average_order_value := round2 avg_order_value } }, s, 200)
  else
    ({ success := false, hook := hook
       error := some ("Unsupported hook: " ++ hook)
       supported_hooks := some ["analytics.calculate", "report.generate"] }, s, 400)

/-- The literal `available_actions` list of the fallback branch
(lines 399-406). -/
def available_actions : List String :=
  ["list_products", "create_order", "get_analytics",
   "calculate_fibonacci", "simulate_delay", "random_data"]

/-- The `/execute` endpoint (lines 268-433).  `rnd` stands for the ten
numbers `random.randint(1, 100)` sampled by the `random_data` branch;
it is an oracle input and only that branch reads it.  Every non-raising
path returns through `jsonify(response)` (line 421), i.e. HTTP 200. -/
def execute (s : Store) (action : String) (data : ExecData) (rnd : List Int) :
    ExecResult × Store × Nat :=
  let s := bumpRequests s
  if action = "list_products" then
    let s := bumpQueries s
    ({ action := "list_products", success := true
       products := some s.products, count := some s.products.length }, s, 200)
  else if action = "create_order" then
    let product_id := data.product_id.getD 1
    let quantity := data.quantity.getD 1
    match s.products.find? (fun p => (p.id : Int) = product_id) with
    | none =>
        ({ action := "create_order", success := false
           error := some "Product not found" }, s, 200)
    | some product =>
        let total_price := product.price * quantity
        let new_order : Order :=
          { id := s.orders.length + 1
            product_id := some product_id
            product_name := some product.name
            quantity := some quantity
            unit_price := some product.price
            total_price := total_price
            status := .confirmed }
        let s :=
          { s with
            orders := s.orders ++ [new_order]
            analytics :=
              { total_revenue := s.analytics.total_revenue + total_price
                orders_count := s.analytics.orders_count + 1 } }
        ({ action := "create_order", success := true, order := some new_order
           message := some "Order created successfully" }, s, 200)
  else if action = "get_analytics" then
    let total_orders := s.orders.length
    let avg_order_value := s.analytics.total_revenue / (max total_orders 1 : ℚ)
    ({ action := "get_analytics", success := true
       analytics := some
         { total_products := s.products.length
           total_orders := total_orders
           total_revenue := s.analytics.total_revenue
           average_order_value := round2 avg_order_value
           recent_orders := s.orders.drop (s.orders.length - 5) } }, s, 200)
  else if action = "calculate_fibonacci" then
    let s := bumpCalculations s
    let n := data.n.getD 20
    let n := min n 35
    ({ action := "calculate_fibonacci", success := true
       fib_input := some n, fib_result := some (fibonacci n)
       calculations_performed := some s.counters.calculations }, s, 200)
  else if action = "simulate_delay" then
    let delay := min (data.delay_ms.getD 100) 2000
    ({ action := "simulate_delay", success := true
       requested_delay_ms := some delay }, s, 200)
  else if action = "random_data" then
    ({ action := "random_data", success := true
       random_numbers := some rnd }, s, 200)
  else
    ({ action := action, success := false
       error := some ("Unknown action: " ++ action)
       available_actions := some available_actions }, s, 200)

/-- A request body as each handler's try block sees it: either it
processes cleanly into the handler's typed fields, or attribute access
on a malformed JSON value (e.g. an array body surviving
`request.get_json() or {}`, or a non-dict `payload`) raises inside the
try block.  `msg` is `str(e)` for the raised exception and `seen` the
hook/action name the except clause reports (`'unknown'` when the
exception hit before the name was bound). -/
inductive RequestBody (α : Type) where
  | parsed (val : α)
  | raising (msg : String) (seen : String)
deriving Repr, DecidableEq

/-- The `/actions/product` endpoint with its try/except boundary
(lines 84-133): `requests` is bumped before the try block (line 88);
a clean body dispatches to `handle_product_action`'s logic, a raising
body is caught at lines 128-133 and answered with HTTP 500, the error
message and success false. -/
def handle_product_endpoint (s : Store) (req : RequestBody (String × ProductPayload)) :
    HookResult × Store × Nat :=
  match req with
  | .parsed (hook, payload) => handle_product_action s hook payload
  | .raising msg seen =>
      ({ success := false, hook := seen, error := some msg }, bumpRequests s, 500)

/-- The `/actions/order` endpoint with its try/except boundary
(lines 135-183): `requests` bumped before the try (line 139); the
except clause (lines 178-183) answers a raising body with HTTP 500. -/
def handle_order_endpoint (s : Store) (req : RequestBody (String × OrderPayload)) :
    HookResult × Store × Nat :=
  match req with
  | .parsed (hook, payload) => handle_order_action s hook payload
  | .raising msg seen =>
      ({ success := false, hook := seen, error := some msg }, bumpRequests s, 500)

/-- The `/actions/analytics` endpoint with its try/except boundary
(lines 185-240): `calculations` bumped before the try (line 189); the
except clause (lines 235-240) answers a raising body with HTTP 500. -/
def handle_analytics_endpoint (s : Store) (req : RequestBody String) :
    HookResult × Store × Nat :=
  match req with
  | .parsed hook => handle_analytics_action s hook
  | .raising msg seen =>
      ({ success := false, hook := seen, error := some msg }, bumpCalculations s, 500)

/-- The `/execute` endpoint with its try/except boundary
(lines 268-433): `requests` bumped before the try (line 272); the
except clause (lines 423-433) answers a raising body with HTTP 500,
reporting the action name it could recover and the error message. -/
def execute_endpoint (s : Store) (req : RequestBody (String × ExecData)) (rnd : List Int) :
    ExecResult × Store × Nat :=
  match req with
  | .parsed (action, data) => execute s action data rnd
  | .raising msg seen =>
      ({ action := seen, success := false, error := some msg }, bumpRequests s, 500)

/-- One dispatcher operation: an `/execute` call or a webhook call. -/
inductive Op where
  | exec (action : String) (data : ExecData) (rnd : List Int)
  | productHook (hook : String) (payload : ProductPayload)
  | orderHook (hook : String) (payload : OrderPayload)
  | analyticsHook (hook : String)
deriving Repr, DecidableEq

/-- The store reached after one dispatcher operation. -/
def applyOp (s : Store) : Op → Store
  | .exec a d r => (execute s a d r).2.1
  | .productHook h p => (handle_product_action s h p).2.1
  | .orderHook h p => (handle_order_action s h p).2.1
  | .analyticsHook h => (handle_analytics_action s h).2.1

/-- The store reached after a sequence of dispatcher operations. -/
def runOps (s : Store) (ops : List Op) : Store := ops.foldl applyOp s

/-- Sum of `total_price` over the stored orders. -/
def orderTotals (s : Store) : ℚ := (s.orders.map Order.total_price).sum

/-- The analytics invariant of the spec: the aggregate mirrors the
stored orders exactly. -/
def storeInv (s : Store) : Prop :=
  s.analytics.total_revenue = orderTotals s ∧
  s.analytics.orders_count = s.orders.length

theorem storeInv_data_store : storeInv data_store := ⟨rfl, rfl⟩

/-- `/execute` never touches the product list. -/
theorem execute_products (s : Store) (a : String) (d : ExecData) (r : List Int) :
    (execute s a d r).2.1.products = s.products := by
  unfold execute
  dsimp only [bumpRequests, bumpQueries, bumpCalculations]
  split_ifs <;>
    first
      | rfl
      | (cases hf : s.products.find? (fun p => (p.id : Int) = d.product_id.getD 1) <;>
          simp [hf])

/-- A single dispatcher operation either leaves the product list alone or
appends exactly the product built from a `product.created` payload. -/
theorem products_applyOp (s : Store) (op : Op) :
    (applyOp s op).products = s.products ∨
    ∃ pp, (applyOp s op).products = s.products ++ [mkProduct s pp] := by
  cases op with
  | exec a d r => exact Or.inl (execute_products s a d r)
  | productHook h p =>
      simp only [applyOp]
      unfold handle_product_action
      dsimp only [bumpRequests]
      split_ifs with h1 h2
      · exact Or.inr ⟨p, by simp [mkProduct]⟩
      · exact Or.inl rfl
      · exact Or.inl rfl
  | orderHook h p =>
      simp only [applyOp]
      unfold handle_order_action
      dsimp only [bumpRequests]
      split_ifs <;> exact Or.inl rfl
  | analyticsHook h =>
      simp only [applyOp]
      unfold handle_analytics_action
      dsimp only [bumpCalculations]
      split_ifs <;> exact Or.inl rfl

/-- A single dispatcher operation appends at most one order and never
removes or edits existing ones. -/
theorem orders_applyOp (s : Store) (op : Op) :
    ∃ t, (applyOp s op).orders = s.orders ++ t ∧ t.length ≤ 1 := by
  cases op with
  | exec a d r =>
      simp only [applyOp]
      unfold execute
      dsimp only [bumpRequests, bumpQueries, bumpCalculations]
      split_ifs
      · exact ⟨[], by simp⟩
      · cases hf : s.products.find? (fun p => (p.id : Int) = d.product_id.getD 1) with
        | none => exact ⟨[], by simp [hf]⟩
        | some product =>
            exact ⟨[{ id := s.orders.length + 1
                      product_id := some (d.product_id.getD 1)
                      product_name := some product.name
                      quantity := some (d.quantity.getD 1)
                      unit_price := some product.price
                      total_price := product.price * ((d.quantity.getD 1 : Int) : ℚ)
                      status := .confirmed }],
                   by simp [hf], by simp⟩
      all_goals exact ⟨[], by simp⟩
  | productHook h p =>
      simp only [applyOp]
      unfold handle_product_action
      dsimp only [bumpRequests]
      split_ifs <;> exact ⟨[], by simp⟩
  | orderHook h p =>
      simp only [applyOp]
      unfold handle_order_action
      dsimp only [bumpRequests]
      split_ifs with h1 h2
      · exact ⟨[{ id := s.orders.length + 1
                  total_price := p.total.getD 0
                  status := .processing }],
               by simp, by simp⟩
      · exact ⟨[], by simp⟩
      · exact ⟨[], by simp⟩
  | analyticsHook h =>
      simp only [applyOp]
      unfold handle_analytics_action
      dsimp only [bumpCalculations]
      split_ifs <;> exact ⟨[], by simp⟩

/-- The analytics aggregate stays synchronised with the order list
across every single dispatcher operation. -/
theorem applyOp_inv (s : Store) (op : Op) (h : storeInv s) : storeInv (applyOp s op) := by
  obtain ⟨h1, h2⟩ := h
  cases op with
  | exec a d r =>
      simp only [applyOp]
      unfold execute
      dsimp only [bumpRequests, bumpQueries, bumpCalculations]
      split_ifs
      · exact ⟨h1, h2⟩
      · cases hf : s.products.find? (fun p => (p.id : Int) = d.product_id.getD 1) with
        | none => exact ⟨h1, h2⟩
        | some product =>
            refine ⟨?_, ?_⟩ <;> simp [orderTotals] at h1 h2 ⊢ <;> simp [h1, h2]
      all_goals exact ⟨h1, h2⟩
  | productHook h p =>
      simp only [applyOp]
      unfold handle_product_action
      dsimp only [bumpRequests]
      split_ifs <;> exact ⟨h1, h2⟩
  | orderHook h p =>
      simp only [applyOp]
      unfold handle_order_action
      dsimp only [bumpRequests]
      split_ifs
      · refine ⟨?_, ?_⟩ <;> simp [orderTotals] at h1 h2 ⊢ <;> simp [h1, h2]
      all_goals exact ⟨h1, h2⟩
  | analyticsHook h =>
      simp only [applyOp]
      unfold handle_analytics_action
      dsimp only [bumpCalculations]
      split_ifs <;> exact ⟨h1, h2⟩

/-- The analytics invariant is preserved along any operation sequence. -/
theorem runOps_inv (s : Store) (ops : List Op) (h : storeInv s) :
    storeInv (runOps s ops) := by
  induction ops generalizing s with
  | nil => exact h
  | cons op rest ih => exact ih _ (applyOp_inv s op h)

/-- On natural inputs the embedded `fibonacci` is exactly `fibAux`. -/
theorem fibonacci_ofNat (k : ℕ) : fibonacci (k : Int) = fibAux k := by
  unfold fibonacci
  match k with
  | 0 => simp [fibAux]
  | 1 => simp [fibAux]
  | k + 2 =>
      rw [if_neg (by omega)]
      congr 1

/-- Fidelity of the embedding: for inputs at least 2 the embedded
`fibonacci` satisfies the source's recursion
`fibonacci(num) = fibonacci(num-1) + fibonacci(num-2)`. -/
theorem fibonacci_rec (num : Int) (h : 2 ≤ num) :
    fibonacci num = fibonacci (num - 1) + fibonacci (num - 2) := by
  obtain ⟨k, rfl⟩ : ∃ k : ℕ, num = ((k + 2 : ℕ) : Int) := ⟨(num - 2).toNat, by omega⟩
  have e1 : ((k + 2 : ℕ) : Int) - 1 = ((k + 1 : ℕ) : Int) := by push_cast; ring
  have e2 : ((k + 2 : ℕ) : Int) - 2 = ((k : ℕ) : Int) := by push_cast; ring
  rw [e1, e2, fibonacci_ofNat, fibonacci_ofNat, fibonacci_ofNat]
  rfl

/-- Rounding an exact zero gives zero. -/
theorem round2_zero : round2 0 = 0 := by
  norm_num [round2, roundHalfEven]

/-- Ids of a product list mirror 1-based positions. -/
def idsOk (l : List Product) : Prop :=
  ∀ i : Nat, ∀ hi : i < l.length, (l.get ⟨i, hi⟩).id = i + 1

theorem idsOk_append (l : List Product) (p : Product) (h : idsOk l)
    (hp : p.id = l.length + 1) : idsOk (l ++ [p]) := by
  intro i hi
  rcases Nat.lt_or_ge i l.length with hlt | hge
  · rw [List.get_eq_getElem, List.getElem_append_left hlt]
    exact h i hlt
  · have hi' : i = l.length := by
      have := hi
      simp at this
      omega
    subst hi'
    simp [hp]

/-- Any dispatcher operation preserves the id-equals-position invariant
on the product list. -/
theorem idsOk_applyOp (s : Store) (op : Op) (h : idsOk s.products) :
    idsOk (applyOp s op).products := by
  rcases products_applyOp s op with heq | ⟨pp, heq⟩
  · rw [heq]; exact h
  · rw [heq]; exact idsOk_append _ _ h rfl

/-- The id-equals-position invariant holds at every reachable state. -/
theorem idsOk_runOps (s : Store) (ops : List Op) (h : idsOk s.products) :
    idsOk (runOps s ops).products := by
  induction ops generalizing s with
  | nil => exact h
  | cons op rest ih => exact ih _ (idsOk_applyOp s op h)

theorem idsOk_data_store : idsOk data_store.products := by
  intro i hi
  have hi3 : i < 3 := by simpa [data_store] using hi
  interval_cases i <;> rfl

/-- The fallback branch of `/execute` for an action outside the six-entry
vocabulary: failure body listing the valid actions, store changed only by
the `requests` bump, HTTP 200 through the normal response path. -/
theorem execute_unknown (s : Store) (a : String) (d : ExecData) (r : List Int)
    (h : a ∉ available_actions) :
    execute s a d r =
      ({ action := a, success := false
         error := some ("Unknown action: " ++ a)
         available_actions := some available_actions }, bumpRequests s, 200) := by
  obtain ⟨h1, h2, h3, h4, h5, h6⟩ :
      a ≠ "list_products" ∧ a ≠ "create_order" ∧ a ≠ "get_analytics" ∧
      a ≠ "calculate_fibonacci" ∧ a ≠ "simulate_delay" ∧ a ≠ "random_data" := by
    simpa [available_actions, not_or] using h
  unfold execute
  rw [if_neg h1, if_neg h2, if_neg h3, if_neg h4, if_neg h5, if_neg h6]

/-- Which endpoint a given operation hits: the analytics webhook bumps
`calculations`, everything else bumps `requests`. -/
def bumpsCalculationsOnly : Op → Bool
  | .analyticsHook _ => true
  | _ => false

/-- C1: at every state reachable from the initial store by any sequence
of dispatcher operations (execute actions and webhook hooks),
`total_revenue` equals the sum of `total_price` over all stored orders
and `orders_count` equals the number of stored orders; moreover each
single operation appends at most one order and never edits existing
ones, so after N successful order creations the aggregate counts exactly
those N orders and sums exactly their totals. -/
theorem analytics_aggregate_invariant (ops : List Op) :
    storeInv (runOps data_store ops) ∧
    ∀ (s : Store) (op : Op), ∃ t, (applyOp s op).orders = s.orders ++ t ∧ t.length ≤ 1 :=
  ⟨runOps_inv data_store ops storeInv_data_store, fun s op => orders_applyOp s op⟩

/-- C2 counterexample: `create_order` with a non-existent `product_id`
does return success false with error "Product not found", but it does
NOT leave the whole Store unchanged — the `requests` counter is bumped
on entry to `/execute` (line 272), so the claim's frame condition on
counters fails at this concrete input. -/
theorem create_order_not_found_mutates_counter :
    (execute data_store "create_order" { product_id := some 999 } []).1.success = false ∧
    (execute data_store "create_order" { product_id := some 999 } []).1.error
      = some "Product not found" ∧
    (execute data_store "create_order" { product_id := some 999 } []).2.1 ≠ data_store := by
  refine ⟨rfl, rfl, by decide⟩

/-- C2 (amended): `create_order` with a `product_id` matching no stored
product returns success false with error "Product not found" and leaves
products, orders and the analytics aggregate unchanged; the only store
mutation is the `requests` counter increment done on entry to
`/execute`. -/
theorem create_order_not_found_frame (s : Store) (d : ExecData) (rnd : List Int)
    (h : ∀ p ∈ s.products, (p.id : Int) ≠ d.product_id.getD 1) :
    (execute s "create_order" d rnd).1.success = false ∧
    (execute s "create_order" d rnd).1.error = some "Product not found" ∧
    (execute s "create_order" d rnd).2.1.products = s.products ∧
    (execute s "create_order" d rnd).2.1.orders = s.orders ∧
    (execute s "create_order" d rnd).2.1.analytics = s.analytics ∧
    (execute s "create_order" d rnd).2.1.counters.requests = s.counters.requests + 1 ∧
    (execute s "create_order" d rnd).2.1.counters.calculations = s.counters.calculations ∧
    (execute s "create_order" d rnd).2.1.counters.queries = s.counters.queries := by
  have hf : s.products.find? (fun p => (p.id : Int) = d.product_id.getD 1) = none :=
    List.find?_eq_none.mpr (fun p hp => by simpa using h p hp)
  unfold execute
  dsimp only [bumpRequests]
  rw [if_neg (by decide : ¬ ("create_order" : String) = "list_products"), if_pos rfl, hf]
  exact ⟨rfl, rfl, rfl, rfl, rfl, rfl, rfl, rfl⟩

/-- Witness for the amended C2 theorem at a concrete input. -/
theorem create_order_not_found_frame_witness :
    (execute data_store "create_order" { product_id := some 999 } []).1.error
      = some "Product not found" ∧
    (execute data_store "create_order" { product_id := some 999 } []).2.1.orders
      = data_store.orders := by
  obtain ⟨-, h2, -, h4, -⟩ :=
    create_order_not_found_frame data_store { product_id := some 999 } [] (by decide)
  exact ⟨h2, h4⟩

/-- C3: on any store satisfying the reachable-state invariant,
`get_analytics` succeeds and reports `average_order_value` as
`total_revenue / max(orders_count, 1)` (rounded to two decimals for
the response, as the source does); on an empty order set it reports
exactly 0, with no division-by-zero fault. -/
theorem get_analytics_average (s : Store) (d : ExecData) (rnd : List Int)
    (h : storeInv s) :
    ∃ snap, (execute s "get_analytics" d rnd).1.analytics = some snap ∧
      (execute s "get_analytics" d rnd).1.success = true ∧
      snap.average_order_value =
        round2 (s.analytics.total_revenue / (max s.analytics.orders_count 1 : ℚ)) ∧
      (s.orders = [] → snap.average_order_value = 0) := by
  obtain ⟨h1, h2⟩ := h
  refine ⟨_, rfl, rfl, ?_, ?_⟩
  · show round2 (s.analytics.total_revenue / (max (s.orders.length : ℚ) 1)) = _
    rw [h2]
  · intro he
    have hrev : s.analytics.total_revenue = 0 := by
      rw [h1]; simp [orderTotals, he]
    show round2 (s.analytics.total_revenue / (max (s.orders.length : ℚ) 1)) = 0
    simp [he, hrev, round2_zero]

/-- Witness for the C3 theorem: the seeded store has no orders and
reports an average order value of exactly 0. -/
theorem get_analytics_average_witness :
    ∃ snap, (execute data_store "get_analytics" {} []).1.analytics = some snap ∧
      snap.average_order_value = 0 := by
  obtain ⟨snap, hs, -, -, hz⟩ := get_analytics_average data_store {} [] ⟨rfl, rfl⟩
  exact ⟨snap, hs, hz rfl⟩

/-- C4: the `calculate_fibonacci` action clamps its input `n`
(default 20) to `min(n, 35)` and returns the naive recursive Fibonacci
value of the clamped input; for `n ≤ 1` the result is `n` itself, and
for `n = 10` it is 55. -/
theorem calculate_fibonacci_clamps (s : Store) (d : ExecData) (rnd : List Int) :
    (execute s "calculate_fibonacci" d rnd).1.fib_result
      = some (fibonacci (min (d.n.getD 20) 35)) ∧
    (∀ num : Int, num ≤ 1 → fibonacci num = num) ∧
    fibonacci 10 = 55 ∧
    (∀ num : Int, d.n = some num → num ≤ 1 →
      (execute s "calculate_fibonacci" d rnd).1.fib_result = some num) := by
  have hbase : ∀ num : Int, num ≤ 1 → fibonacci num = num := by
    intro num hle
    unfold fibonacci
    rw [if_pos hle]
  have hmain : (execute s "calculate_fibonacci" d rnd).1.fib_result
      = some (fibonacci (min (d.n.getD 20) 35)) := rfl
  refine ⟨hmain, hbase, by decide, ?_⟩
  intro num hn hle
  rw [hmain, hn]
  simp only [Option.getD_some]
  rw [min_eq_left (by omega), hbase num hle]

/-- Witness for the C4 theorem at n = 10. -/
theorem calculate_fibonacci_clamps_witness :
    (execute data_store "calculate_fibonacci" { n := some 10 } []).1.fib_result
      = some 55 := by
  have h := calculate_fibonacci_clamps data_store { n := some 10 } []
  rw [h.1]
  decide

/-- C5: dispatching any action string outside the six-entry vocabulary
never raises (the embedding is total), leaves products, orders and
analytics unchanged, and returns success false together with the
literal list of the six supported action names. -/
theorem unknown_action_no_mutation (s : Store) (a : String) (d : ExecData) (rnd : List Int)
    (h : a ∉ ["list_products", "create_order", "get_analytics",
              "calculate_fibonacci", "simulate_delay", "random_data"]) :
    (execute s a d rnd).1.success = false ∧
    (execute s a d rnd).1.available_actions =
      some ["list_products", "create_order", "get_analytics",
            "calculate_fibonacci", "simulate_delay", "random_data"] ∧
    (execute s a d rnd).2.1.products = s.products ∧
    (execute s a d rnd).2.1.orders = s.orders ∧
    (execute s a d rnd).2.1.analytics = s.analytics := by
  rw [execute_unknown s a d rnd (by simpa [available_actions] using h)]
  exact ⟨rfl, rfl, rfl, rfl, rfl⟩

/-- Witness for the C5 theorem at a concrete unrecognised action. -/
theorem unknown_action_no_mutation_witness :
    (execute data_store "drop_table" {} []).1.success = false ∧
    (execute data_store "drop_table" {} []).1.available_actions =
      some ["list_products", "create_order", "get_analytics",
            "calculate_fibonacci", "simulate_delay", "random_data"] ∧
    (execute data_store "drop_table" {} []).2.1.products = data_store.products ∧
    (execute data_store "drop_table" {} []).2.1.orders = data_store.orders ∧
    (execute data_store "drop_table" {} []).2.1.analytics = data_store.analytics :=
  unknown_action_no_mutation data_store "drop_table" {} [] (by decide)

/-- C6 counterexample: an unknown action on `/execute` is returned with
HTTP status 200 through the normal response path (line 421), not 400 as
the claim states; the failure is signalled only in the body. -/
theorem unknown_action_http_200 :
    (execute data_store "default" {} []).1.success = false ∧
    (execute data_store "default" {} []).1.error = some "Unknown action: default" ∧
    (execute data_store "default" {} []).2.2 = 200 ∧
    ¬ (execute data_store "default" {} []).2.2 = 400 := by
  refine ⟨rfl, rfl, rfl, by decide⟩

/-- C6 (amended): an unsupported hook on any of the three webhook
endpoints is returned with HTTP status 400 and a body carrying an error
and success false; an unknown action on `/execute` is returned with
HTTP status 200 whose body carries the error and success false; and an
unexpected internal error — a request body whose processing raises
inside a handler's try block — is returned with HTTP status 500 and a
body carrying the error message and success false, on all four
endpoints. -/
theorem error_http_statuses (s : Store) (hook a : String)
    (pp : ProductPayload) (opl : OrderPayload) (d : ExecData) (rnd : List Int)
    (msg seen : String) :
    (¬ (hook = "product.created" ∨ hook = "product.updated") →
      (handle_product_action s hook pp).2.2 = 400 ∧
      (handle_product_action s hook pp).1.success = false ∧
      (handle_product_action s hook pp).1.error = some ("Unsupported hook: " ++ hook)) ∧
    (¬ (hook = "order.created" ∨ hook = "order.updated" ∨ hook = "order.paid") →
      (handle_order_action s hook opl).2.2 = 400 ∧
      (handle_order_action s hook opl).1.success = false ∧
      (handle_order_action s hook opl).1.error = some ("Unsupported hook: " ++ hook)) ∧
    (¬ (hook = "analytics.calculate" ∨ hook = "report.generate") →
      (handle_analytics_action s hook).2.2 = 400 ∧
      (handle_analytics_action s hook).1.success = false ∧
      (handle_analytics_action s hook).1.error = some ("Unsupported hook: " ++ hook)) ∧
    (a ∉ available_actions →
      (execute s a d rnd).2.2 = 200 ∧
      (execute s a d rnd).1.success = false ∧
      (execute s a d rnd).1.error = some ("Unknown action: " ++ a)) ∧
    ((handle_product_endpoint s (.raising msg seen)).2.2 = 500 ∧
      (handle_product_endpoint s (.raising msg seen)).1.success = false ∧
      (handle_product_endpoint s (.raising msg seen)).1.error = some msg) ∧
    ((handle_order_endpoint s (.raising msg seen)).2.2 = 500 ∧
      (handle_order_endpoint s (.raising msg seen)).1.success = false ∧
      (handle_order_endpoint s (.raising msg seen)).1.error = some msg) ∧
    ((handle_analytics_endpoint s (.raising msg seen)).2.2 = 500 ∧
      (handle_analytics_endpoint s (.raising msg seen)).1.success = false ∧
      (handle_analytics_endpoint s (.raising msg seen)).1.error = some msg) ∧
    ((execute_endpoint s (.raising msg seen) rnd).2.2 = 500 ∧
      (execute_endpoint s (.raising msg seen) rnd).1.success = false ∧
      (execute_endpoint s (.raising msg seen) rnd).1.error = some msg) := by
  refine ⟨fun h => ?_, fun h => ?_, fun h => ?_, fun h => ?_,
    ⟨rfl, rfl, rfl⟩, ⟨rfl, rfl, rfl⟩, ⟨rfl, rfl, rfl⟩, ⟨rfl, rfl, rfl⟩⟩
  · unfold handle_product_action
    rw [if_neg h]
    exact ⟨rfl, rfl, rfl⟩
  · unfold handle_order_action
    rw [if_neg h]
    exact ⟨rfl, rfl, rfl⟩
  · unfold handle_analytics_action
    rw [if_neg h]
    exact ⟨rfl, rfl, rfl⟩
  · rw [execute_unknown s a d rnd h]
    exact ⟨rfl, rfl, rfl⟩

/-- Witness for the amended C6 theorem at concrete inputs, covering the
400, 200 and 500 cases. -/
theorem error_http_statuses_witness :
    (handle_product_action data_store "bogus" {}).2.2 = 400 ∧
    (handle_order_action data_store "bogus" {}).2.2 = 400 ∧
    (handle_analytics_action data_store "bogus").2.2 = 400 ∧
    (execute data_store "default" {} []).2.2 = 200 ∧
    (handle_product_endpoint data_store
        (.raising "AttributeError" "unknown")).2.2 = 500 ∧
    (execute_endpoint data_store
        (.raising "AttributeError" "unknown") []).2.2 = 500 := by
  obtain ⟨h1, h2, h3, h4, h5, -, -, h8⟩ :=
    error_http_statuses data_store "bogus" "default" {} {} {} [] "AttributeError" "unknown"
  exact ⟨(h1 (by decide)).1, (h2 (by decide)).1, (h3 (by decide)).1, (h4 (by decide)).1,
    h5.1, h8.1⟩

/-- C7: the accepted non-creating hooks — `product.updated`,
`order.updated`, `order.paid` — return a success acknowledgment while
leaving products, orders (hence every existing order's status field)
and the analytics aggregate unchanged; only the `requests` counter
advances. -/
theorem noop_hooks_frame (s : Store) (pp : ProductPayload) (opl : OrderPayload)
    (hook : String) (h : hook = "order.updated" ∨ hook = "order.paid") :
    ((handle_product_action s "product.updated" pp).1.success = true ∧
     (handle_product_action s "product.updated" pp).2.1.products = s.products ∧
     (handle_product_action s "product.updated" pp).2.1.orders = s.orders ∧
     (handle_product_action s "product.updated" pp).2.1.analytics = s.analytics ∧
     (handle_product_action s "product.updated" pp).2.1.counters.requests
        = s.counters.requests + 1 ∧
     (handle_product_action s "product.updated" pp).2.1.counters.calculations
        = s.counters.calculations ∧
     (handle_product_action s "product.updated" pp).2.1.counters.queries
        = s.counters.queries) ∧
    ((handle_order_action s hook opl).1.success = true ∧
     (handle_order_action s hook opl).2.1.products = s.products ∧
     (handle_order_action s hook opl).2.1.orders = s.orders ∧
     (handle_order_action s hook opl).2.1.analytics = s.analytics ∧
     (handle_order_action s hook opl).2.1.counters.requests = s.counters.requests + 1 ∧
     (handle_order_action s hook opl).2.1.counters.calculations = s.counters.calculations ∧
     (handle_order_action s hook opl).2.1.counters.queries = s.counters.queries) := by
  rcases h with rfl | rfl <;>
    exact ⟨⟨rfl, rfl, rfl, rfl, rfl, rfl, rfl⟩, ⟨rfl, rfl, rfl, rfl, rfl, rfl, rfl⟩⟩

/-- Witness for the C7 theorem at a concrete store and hook. -/
theorem noop_hooks_frame_witness :
    (handle_product_action data_store "product.updated" {}).2.1.orders
      = data_store.orders ∧
    (handle_order_action data_store "order.paid" {}).2.1.analytics
      = data_store.analytics := by
  obtain ⟨⟨-, -, hpo, -, -, -, -⟩, ⟨-, -, -, hoa, -, -, -⟩⟩ :=
    noop_hooks_frame data_store {} {} "order.paid" (Or.inr rfl)
  exact ⟨hpo, hoa⟩

/-- C8: `list_products` returns exactly the stored product list; a
successful `product.created` webhook appends exactly the product built
from its payload at the end of the list; and no dispatcher operation
ever removes or reorders products — so the listing always shows the
seeded products first, then the created ones in call order. -/
theorem list_products_reflects_created (s : Store) (d : ExecData) (rnd : List Int)
    (payload : ProductPayload) (op : Op) :
    (execute s "list_products" d rnd).1.products = some s.products ∧
    (handle_product_action s "product.created" payload).1.success = true ∧
    (handle_product_action s "product.created" payload).2.1.products
      = s.products ++ [mkProduct s payload] ∧
    ∃ t, (applyOp s op).products = s.products ++ t := by
  refine ⟨rfl, rfl, rfl, ?_⟩
  rcases products_applyOp s op with heq | ⟨pp, heq⟩
  · exact ⟨[], by simp [heq]⟩
  · exact ⟨[mkProduct s pp], heq⟩

/-- C9 counterexample: the `product.created` webhook performs no
validation, so a payload carrying a negative price is accepted as a
success and a product with negative price is stored, refuting the
non-negativity part of the claim. -/
theorem product_negative_price_stored :
    (handle_product_action data_store "product.created"
        { name := some "Bad", price := some (-1) }).1.success = true ∧
    ∃ p ∈ (handle_product_action data_store "product.created"
        { name := some "Bad", price := some (-1) }).2.1.products,
      p.price < 0 := by
  refine ⟨rfl, mkProduct data_store { name := some "Bad", price := some (-1) }, ?_, ?_⟩
  · show mkProduct data_store { name := some "Bad", price := some (-1) }
      ∈ data_store.products ++ [mkProduct data_store { name := some "Bad", price := some (-1) }]
    simp
  · show (some (-1 : ℚ)).getD 0 < 0
    norm_num

/-- C9 (amended): at every reachable store state every stored product's
integer id equals its 1-based insertion position, hence ids are unique;
price and stock are copied from the payload without validation (the
seeded products have non-negative price and stock, but created ones
need not — see the counterexample). -/
theorem product_ids_unique_positions (ops : List Op) (i j : Nat)
    (hi : i < (runOps data_store ops).products.length)
    (hj : j < (runOps data_store ops).products.length) :
    ((runOps data_store ops).products.get ⟨i, hi⟩).id = i + 1 ∧
    (i ≠ j → ((runOps data_store ops).products.get ⟨i, hi⟩).id
              ≠ ((runOps data_store ops).products.get ⟨j, hj⟩).id) := by
  have h := idsOk_runOps data_store ops idsOk_data_store
  refine ⟨h i hi, fun hne => ?_⟩
  rw [h i hi, h j hj]
  omega

/-- Witness for the amended C9 theorem: after one created product the
fourth slot holds id 4. -/
theorem product_ids_unique_positions_witness :
    ((runOps data_store [Op.productHook "product.created" {}]).products.get
        ⟨3, by decide⟩).id = 4 ∧
    ((runOps data_store [Op.productHook "product.created" {}]).products.get
        ⟨3, by decide⟩).id
      ≠ ((runOps data_store [Op.productHook "product.created" {}]).products.get
        ⟨0, by decide⟩).id := by
  have h := product_ids_unique_positions [Op.productHook "product.created" {}]
    3 0 (by decide) (by decide)
  exact ⟨h.1, h.2 (by decide)⟩

/-- C10: every `/execute` call and every product or order webhook call
increments the `requests` counter by exactly one — failures included —
while the analytics webhook increments `calculations` instead and
leaves `requests` alone; no counter ever decreases. -/
theorem counters_monotone_increment (s : Store) (op : Op) :
    (bumpsCalculationsOnly op = false →
      (applyOp s op).counters.requests = s.counters.requests + 1) ∧
    (bumpsCalculationsOnly op = true →
      (applyOp s op).counters.calculations = s.counters.calculations + 1 ∧
      (applyOp s op).counters.requests = s.counters.requests) ∧
    s.counters.requests ≤ (applyOp s op).counters.requests ∧
    s.counters.calculations ≤ (applyOp s op).counters.calculations ∧
    s.counters.queries ≤ (applyOp s op).counters.queries := by
  cases op with
  | exec a d r =>
      have hreq : (applyOp s (.exec a d r)).counters.requests = s.counters.requests + 1 := by
        simp only [applyOp]
        unfold execute
        dsimp only [bumpRequests, bumpQueries, bumpCalculations]
        split_ifs <;>
          first
            | rfl
            | (cases hf : s.products.find? (fun p => (p.id : Int) = d.product_id.getD 1) <;>
                simp [hf])
      have hcal : s.counters.calculations ≤ (applyOp s (.exec a d r)).counters.calculations := by
        simp only [applyOp]
        unfold execute
        dsimp only [bumpRequests, bumpQueries, bumpCalculations]
        split_ifs <;>
          first
            | simp
            | (cases hf : s.products.find? (fun p => (p.id : Int) = d.product_id.getD 1) <;>
                simp [hf])
      have hq : s.counters.queries ≤ (applyOp s (.exec a d r)).counters.queries := by
        simp only [applyOp]
        unfold execute
        dsimp only [bumpRequests, bumpQueries, bumpCalculations]
        split_ifs <;>
          first
            | simp
            | (cases hf : s.products.find? (fun p => (p.id : Int) = d.product_id.getD 1) <;>
                simp [hf])
      refine ⟨fun _ => hreq, fun hc => by simp [bumpsCalculationsOnly] at hc, ?_, hcal, hq⟩
      rw [hreq]
      omega
  | productHook h p =>
      have hcs : (applyOp s (.productHook h p)).counters
          = (bumpRequests s).counters := by
        simp only [applyOp]
        unfold handle_product_action
        dsimp only [bumpRequests]
        split_ifs <;> rfl
      rw [hcs]
      refine ⟨fun _ => rfl, fun hc => by simp [bumpsCalculationsOnly] at hc, ?_, le_refl _, le_refl _⟩
      show s.counters.requests ≤ s.counters.requests + 1
      omega
  | orderHook h p =>
      have hcs : (applyOp s (.orderHook h p)).counters
          = (bumpRequests s).counters := by
        simp only [applyOp]
        unfold handle_order_action
        dsimp only [bumpRequests]
        split_ifs <;> rfl
      rw [hcs]
      refine ⟨fun _ => rfl, fun hc => by simp [bumpsCalculationsOnly] at hc, ?_, le_refl _, le_refl _⟩
      show s.counters.requests ≤ s.counters.requests + 1
      omega
  | analyticsHook h =>
      have hcs : (applyOp s (.analyticsHook h)).counters
          = (bumpCalculations s).counters := by
        simp only [applyOp]
        unfold handle_analytics_action
        dsimp only [bumpCalculations]
        split_ifs <;> rfl
      rw [hcs]
      refine ⟨fun hc => by simp [bumpsCalculationsOnly] at hc, fun _ => ⟨rfl, rfl⟩,
        le_refl _, ?_, le_refl _⟩
      show s.counters.calculations ≤ s.counters.calculations + 1
      omega

/-- Witness for the C10 theorem at concrete operations. -/
theorem counters_monotone_increment_witness :
    (applyOp data_store (Op.analyticsHook "analytics.calculate")).counters.calculations
      = data_store.counters.calculations + 1 ∧
    (applyOp data_store (Op.exec "list_products" {} [])).counters.requests
      = data_store.counters.requests + 1 :=
  ⟨((counters_monotone_increment data_store (Op.analyticsHook "analytics.calculate")).2.1 rfl).1,
   (counters_monotone_increment data_store (Op.exec "list_products" {} [])).1 rfl⟩

end CmsPlugin
